import Mathlib

/-!
Shallow embedding of src/src-tauri/src/main.rs (ehis6k/transcriber).

The file contains a pure greeting command, a single SQLite migration
declaring three tables and three indexes (all statements guarded with
IF NOT EXISTS), and the application bootstrap that registers the command,
initializes the SQL plugin with the migration list at a fixed database
URL, and aborts with a fixed message if the run loop fails.

SQL statements are embedded as structured values; a small executable
semantics over a schema state interprets CREATE TABLE / CREATE INDEX
(with their existence guards), DROP, ALTER and PRAGMA statements, and a
row-insertion semantics interprets column defaults, NOT NULL and
foreign-key checks.
-/

namespace Transcriber

/-- Rust: `fn greet(name: &str) -> String`, the body of the format macro
written out as string concatenation. -/
def greet (name : String) : String :=
  "Hello, " ++ name ++ "! You've been greeted from Rust!"

/-- SQL column default clause: either absent or DEFAULT CURRENT_TIMESTAMP. -/
inductive SqlDefault where
  | none
  | currentTimestamp
  deriving DecidableEq, Repr

/-- One column declaration of a CREATE TABLE statement. -/
structure Column where
  name : String
  ty : String
  notNull : Bool
  primaryKey : Bool
  dflt : SqlDefault
  deriving DecidableEq, Repr

/-- A FOREIGN KEY table constraint. -/
structure ForeignKey where
  column : String
  refTable : String
  refColumn : String
  deriving DecidableEq, Repr

/-- A SQL statement of the migration batch.  Only the statement forms
occurring in (or relevant to the absence claims about) this repository
are embedded. -/
inductive Stmt where
  | createTable (ifNotExists : Bool) (name : String)
      (cols : List Column) (fks : List ForeignKey)
  | createIndex (ifNotExists : Bool) (name : String)
      (table : String) (cols : List String)
  | dropTable (name : String)
  | dropIndex (name : String)
  | alterTable (name : String) (action : String)
  | pragmaForeignKeys (enable : Bool)
  deriving DecidableEq, Repr

/-- Rust: `enum MigrationKind` of tauri_plugin_sql. -/
inductive MigrationKind where
  | Up
  | Down
  deriving DecidableEq, Repr

/-- Rust: `struct Migration` of tauri_plugin_sql. -/
structure Migration where
  version : Nat
  descr : String
  sql : List Stmt
  kind : MigrationKind
  deriving DecidableEq, Repr

/-- Columns of CREATE TABLE transcriptions, in source order. -/
def transcriptionsCols : List Column :=
  [ ⟨"id", "TEXT", false, true, .none⟩,
    ⟨"audio_file_id", "TEXT", true, false, .none⟩,
    ⟨"text", "TEXT", true, false, .none⟩,
    ⟨"language", "TEXT", true, false, .none⟩,
    ⟨"model_used", "TEXT", true, false, .none⟩,
    ⟨"duration", "REAL", true, false, .none⟩,
    ⟨"confidence", "REAL", false, false, .none⟩,
    ⟨"created_at", "DATETIME", false, false, .currentTimestamp⟩,
    ⟨"updated_at", "DATETIME", false, false, .currentTimestamp⟩ ]

/-- Columns of CREATE TABLE summaries, in source order. -/
def summariesCols : List Column :=
  [ ⟨"id", "TEXT", false, true, .none⟩,
    ⟨"transcription_id", "TEXT", true, false, .none⟩,
    ⟨"summary", "TEXT", true, false, .none⟩,
    ⟨"language", "TEXT", true, false, .none⟩,
    ⟨"model_used", "TEXT", true, false, .none⟩,
    ⟨"original_length", "INTEGER", true, false, .none⟩,
    ⟨"summary_length", "INTEGER", true, false, .none⟩,
    ⟨"compression_ratio", "REAL", true, false, .none⟩,
    ⟨"processing_time", "INTEGER", true, false, .none⟩,
    ⟨"created_at", "DATETIME", false, false, .currentTimestamp⟩ ]

/-- Columns of CREATE TABLE user_preferences, in source order. -/
def userPreferencesCols : List Column :=
  [ ⟨"key", "TEXT", false, true, .none⟩,
    ⟨"value", "TEXT", true, false, .none⟩,
    ⟨"updated_at", "DATETIME", false, false, .currentTimestamp⟩ ]

/-- The SQL batch of migration version 1, statement by statement in
source order. -/
def migration1Sql : List Stmt :=
  [ .createTable true "transcriptions" transcriptionsCols [],
    .createTable true "summaries" summariesCols
      [⟨"transcription_id", "transcriptions", "id"⟩],
    .createTable true "user_preferences" userPreferencesCols [],
    .createIndex true "idx_transcriptions_created_at" "transcriptions"
      ["created_at"],
    .createIndex true "idx_transcriptions_language" "transcriptions"
      ["language"],
    .createIndex true "idx_summaries_transcription_id" "summaries"
      ["transcription_id"] ]

/-- Rust: the `migrations` vector built in `main`. -/
def migrations : List Migration :=
  [ { version := 1,
      descr := "Create initial tables",
      sql := migration1Sql,
      kind := .Up } ]

/-- Rust: the database URL handed to `init_with_migrations`. -/
def dbUrl : String := "sqlite:transcription_history.db"

/-- A stored SQL value. -/
inductive Value where
  | null
  | text (s : String)
  | int (i : Int)
  | real (r : Int)
  | timestamp (t : Nat)
  deriving DecidableEq, Repr

/-- A stored row: association list from column name to value. -/
structure Row where
  cells : List (String × Value)
  deriving DecidableEq, Repr

/-- A schema object living in the database. -/
inductive SchemaObject where
  | table (name : String) (cols : List Column) (fks : List ForeignKey)
  | index (name : String) (table : String) (cols : List String)
  deriving DecidableEq, Repr

/-- The name of a schema object. -/
def SchemaObject.objName : SchemaObject → String
  | .table n _ _ => n
  | .index n _ _ => n

/-- The database state: its schema objects, its rows (tagged with their
table), and whether foreign-key enforcement is switched on.  SQLite
starts with foreign-key enforcement off unless a PRAGMA enables it. -/
structure DbState where
  objects : List SchemaObject
  rows : List (String × Row)
  fkEnforce : Bool
  deriving DecidableEq, Repr

/-- A fresh empty SQLite database. -/
def emptyDb : DbState := { objects := [], rows := [], fkEnforce := false }

/-- Whether a table of the given name exists. -/
def hasTable (db : DbState) (n : String) : Bool :=
  db.objects.any fun o => match o with
    | .table m _ _ => m == n
    | _ => false

/-- Whether an index of the given name exists. -/
def hasIndex (db : DbState) (n : String) : Bool :=
  db.objects.any fun o => match o with
    | .index m _ _ => m == n
    | _ => false

/-- Look up the column list and foreign keys of a table. -/
def findTable (db : DbState) (n : String) :
    Option (List Column × List ForeignKey) :=
  db.objects.findSome? fun o => match o with
    | .table m cols fks => if m == n then some (cols, fks) else none
    | _ => none

/-- Execute one SQL statement on a database state.  CREATE with an
IF NOT EXISTS guard skips silently when the object already exists; an
unguarded CREATE errors then.  CREATE INDEX on a missing table errors
even when guarded, unless the index already exists. -/
def execStmt (db : DbState) : Stmt → Except String DbState
  | .createTable ine n cols fks =>
      if hasTable db n then
        if ine then .ok db
        else .error ("table " ++ n ++ " already exists")
      else .ok { db with objects := db.objects ++ [.table n cols fks] }
  | .createIndex ine n t cols =>
      if hasIndex db n then
        if ine then .ok db
        else .error ("index " ++ n ++ " already exists")
      else if hasTable db t then
        .ok { db with objects := db.objects ++ [.index n t cols] }
      else .error ("no such table: " ++ t)
  | .dropTable n =>
      if hasTable db n then
        .ok { db with objects := db.objects.filter fun o =>
                !(o.objName == n) }
      else .error ("no such table: " ++ n)
  | .dropIndex n =>
      if hasIndex db n then
        .ok { db with objects := db.objects.filter fun o =>
                !(o.objName == n) }
      else .error ("no such index: " ++ n)
  | .alterTable n _ =>
      if hasTable db n then .ok db
      else .error ("no such table: " ++ n)
  | .pragmaForeignKeys b =>
      .ok { db with fkEnforce := b }

/-- Execute a statement batch left to right, stopping at the first
error. -/
def execBatch (db : DbState) : List Stmt → Except String DbState
  | [] => .ok db
  | s :: rest =>
      match execStmt db s with
      | .ok db₂ => execBatch db₂ rest
      | .error e => .error e

/-- Apply one migration: run its SQL batch. -/
def applyMigration (db : DbState) (m : Migration) : Except String DbState :=
  execBatch db m.sql

/-- Association-list lookup of a column value by name. -/
def lookupVal : List (String × Value) → String → Option Value
  | [], _ => none
  | (k, v) :: rest, n => if k == n then some v else lookupVal rest n

/-- Value stored for one column, given the values the INSERT supplies
explicitly: an explicitly supplied value wins; otherwise the column
default is evaluated at insertion time (CURRENT_TIMESTAMP becomes the
current time `now`); a column with no default becomes NULL. -/
def cellValue (given : List (String × Value)) (now : Nat) (c : Column) :
    Value :=
  match lookupVal given c.name with
  | some v => v
  | none =>
      match c.dflt with
      | .currentTimestamp => .timestamp now
      | .none => .null

/-- The full row an INSERT stores, one cell per declared column. -/
def completeRow (cols : List Column) (given : List (String × Value))
    (now : Nat) : Row :=
  ⟨cols.map fun c => (c.name, cellValue given now c)⟩

/-- Read one cell of a row. -/
def Row.get (r : Row) (c : String) : Option Value :=
  lookupVal r.cells c

/-- NOT NULL (and implicit primary-key) violation: some required column
ends up NULL. -/
def violatesNotNull (cols : List Column) (r : Row) : Bool :=
  cols.any fun c =>
    (c.notNull || c.primaryKey) && (r.get c.name == some .null)

/-- Primary-key uniqueness violation: an existing row of the same table
already holds the same value in a primary-key column. -/
def pkClash (db : DbState) (t : String) (cols : List Column) (r : Row) :
    Bool :=
  cols.any fun c =>
    c.primaryKey && db.rows.any fun p =>
      p.1 == t && p.2.get c.name == r.get c.name

/-- All declared foreign keys of the row are satisfied: each referencing
value (when not NULL) occurs in the referenced column of some row of the
referenced table. -/
def fksOk (db : DbState) (fks : List ForeignKey) (r : Row) : Bool :=
  fks.all fun fk =>
    match r.get fk.column with
    | some .null => true
    | none => true
    | some v => db.rows.any fun p =>
        p.1 == fk.refTable && p.2.get fk.refColumn == some v

/-- INSERT INTO t (…) VALUES (…): complete the supplied values with the
column defaults, check NOT NULL, primary-key uniqueness, and (only when
enforcement is switched on) the foreign keys, then store the row. -/
def insertRow (db : DbState) (t : String)
    (given : List (String × Value)) (now : Nat) : Except String DbState :=
  match findTable db t with
  | none => .error ("no such table: " ++ t)
  | some (cols, fks) =>
      if violatesNotNull cols (completeRow cols given now) then
        .error "NOT NULL constraint failed"
      else if pkClash db t cols (completeRow cols given now) then
        .error "UNIQUE constraint failed"
      else if db.fkEnforce && !fksOk db fks (completeRow cols given now) then
        .error "FOREIGN KEY constraint failed"
      else .ok { db with rows := (t, completeRow cols given now) :: db.rows }

/-- Result of the tauri run loop. -/
inductive RunResult where
  | success
  | failure (e : String)
  deriving DecidableEq, Repr

/-- How the process ends. -/
inductive ProcessOutcome where
  | normal
  | abort (msg : String)
  deriving DecidableEq, Repr

/-- Rust: the message of the `.expect(…)` call in `main`. -/
def expectMsg : String := "error while running tauri application"

/-- Rust: `main` ends by `.run(…).expect("error while running tauri
application")`: a failing run aborts the process with that fixed
message, a successful run ends normally. -/
def mainOutcome : RunResult → ProcessOutcome
  | .success => .normal
  | .failure _ => .abort expectMsg

/-- Rust: the command list of `tauri::generate_handler![greet]`. -/
def registeredCommands : List String := ["greet"]

/-- Command dispatch generated by the handler macro: only the command
named greet is invocable; it receives a string and never fails.  The
database state is passed through to make the absence of state access
explicit. -/
def dispatch (db : DbState) (cmd : String) (arg : String) :
    DbState × Option (Except String String) :=
  if cmd == "greet" then (db, some (.ok (greet arg))) else (db, none)

/-- Whether a statement is a CREATE guarded by IF NOT EXISTS. -/
def Stmt.isGuardedCreate : Stmt → Bool
  | .createTable ine _ _ _ => ine
  | .createIndex ine _ _ _ => ine
  | _ => false

/-- Whether a statement is a PRAGMA toggling foreign-key enforcement. -/
def Stmt.isPragma : Stmt → Bool
  | .pragmaForeignKeys _ => true
  | _ => false

/-- The database reached by applying migration version 1 to a fresh
empty database. -/
def v1Db : DbState :=
  match execBatch emptyDb migration1Sql with
  | .ok d => d
  | .error _ => emptyDb

end Transcriber

namespace Transcriber

/-- C1: greet returns exactly the concatenation of the fixed prefix, the
name, and the fixed suffix, for every name; in particular at "Ada". -/
theorem greet_spec :
    (∀ name : String,
      greet name = "Hello, " ++ name ++ "! You've been greeted from Rust!")
    ∧ greet "Ada" = "Hello, Ada! You've been greeted from Rust!" :=
  ⟨fun _ => rfl, rfl⟩

/-- C3: applying migration version 1 to a fresh empty database creates
exactly the three tables and three indexes, in source order, with the
declared columns and constraints, and no other schema objects; of the
transcriptions columns, confidence is the only one that is nullable and
has no default. -/
theorem migration1_fresh_schema :
    execBatch emptyDb migration1Sql = .ok v1Db
    ∧ v1Db.objects =
      [ .table "transcriptions" transcriptionsCols [],
        .table "summaries" summariesCols
          [⟨"transcription_id", "transcriptions", "id"⟩],
        .table "user_preferences" userPreferencesCols [],
        .index "idx_transcriptions_created_at" "transcriptions"
          ["created_at"],
        .index "idx_transcriptions_language" "transcriptions" ["language"],
        .index "idx_summaries_transcription_id" "summaries"
          ["transcription_id"] ]
    ∧ (transcriptionsCols.filter fun c =>
        !c.notNull && !c.primaryKey && c.dflt == SqlDefault.none).map
        Column.name = ["confidence"] :=
  ⟨rfl, rfl, rfl⟩

/-- C4: the migration list handed to the bootstrapper has strictly
increasing versions, every record is an Up migration with a nonempty
description and a nonempty SQL batch, and the list is exactly one record
with version 1 and description "Create initial tables". -/
theorem migrations_shape :
    migrations =
      [{ version := 1, descr := "Create initial tables",
         sql := migration1Sql, kind := .Up }]
    ∧ List.Chain' (· < ·) (migrations.map Migration.version)
    ∧ migrations.all
        (fun m => m.kind == .Up && m.descr != "" && m.sql.length != 0)
      = true :=
  ⟨rfl, by simp [migrations], rfl⟩

/-- C5: the schema created by migration version 1 declares
summaries.transcription_id as a foreign key referencing
transcriptions(id), but no statement of the batch is a PRAGMA, so
foreign-key enforcement stays off, and inserting a summaries row whose
transcription_id matches no transcriptions row succeeds even though the
declared foreign key is not satisfied by that row. -/
theorem no_fk_enforcement :
    findTable v1Db "summaries"
      = some (summariesCols, [⟨"transcription_id", "transcriptions", "id"⟩])
    ∧ migration1Sql.all (fun s => ! s.isPragma) = true
    ∧ v1Db.fkEnforce = false
    ∧ (∃ d, insertRow v1Db "summaries"
        [("id", .text "s1"), ("transcription_id", .text "missing"),
         ("summary", .text "x"), ("language", .text "en"),
         ("model_used", .text "m"), ("original_length", .int 10),
         ("summary_length", .int 5), ("compression_ratio", .real 2),
         ("processing_time", .int 7)] 0 = .ok d)
    ∧ fksOk v1Db [⟨"transcription_id", "transcriptions", "id"⟩]
        (completeRow summariesCols
          [("transcription_id", .text "missing")] 0) = false :=
  ⟨rfl, rfl, rfl, ⟨_, rfl⟩, rfl⟩

/-- C7: the process ends normally when the run loop succeeds, and ends
in an abort with the fixed message "error while running tauri
application" exactly when the run loop fails, whatever the underlying
error; invoking the greet command never fails. -/
theorem single_failure_path :
    expectMsg = "error while running tauri application"
    ∧ mainOutcome .success = .normal
    ∧ (∀ e, mainOutcome (.failure e) = .abort expectMsg)
    ∧ (∀ db n, (dispatch db "greet" n).2 = some (.ok (greet n))) :=
  ⟨rfl, rfl, fun _ => rfl, fun _ _ => rfl⟩

/-- C9: the registered command surface is exactly the one command greet,
mapping a string argument to a string; dispatch answers a command name
exactly when it is greet; the database URL fixes the relative path
transcription_history.db. -/
theorem command_surface :
    registeredCommands = ["greet"]
    ∧ (∀ db n, (dispatch db "greet" n).2 = some (.ok (greet n)))
    ∧ (∀ db cmd n, ((dispatch db cmd n).2).isSome = (cmd == "greet"))
    ∧ dbUrl = "sqlite:" ++ "transcription_history.db" := by
  refine ⟨rfl, fun _ _ => rfl, fun db cmd n => ?_, rfl⟩
  cases h : cmd == "greet" <;> simp [dispatch, h]

/-- C10: greet is deterministic (equal inputs give equal outputs) and
invoking any command through the dispatcher leaves the database state
unchanged: the invocation produces only its return value. -/
theorem greet_pure :
    (∀ a b : String, a = b → greet a = greet b)
    ∧ (∀ db cmd n, (dispatch db cmd n).1 = db) := by
  refine ⟨fun a b h => by rw [h], fun db cmd n => ?_⟩
  by_cases h : (cmd == "greet") = true <;> simp [dispatch, h]

/-- Witness for greet_pure at concrete inputs. -/
theorem greet_pure_witness :
    greet "Ada" = greet "Ada" ∧ (dispatch emptyDb "greet" "Ada").1 = emptyDb :=
  ⟨greet_pure.1 "Ada" "Ada" rfl, greet_pure.2 emptyDb "greet" "Ada"⟩

/-- Every statement of the version-1 batch is a guarded CREATE. -/
theorem migration1Sql_all_guarded :
    ∀ s ∈ migration1Sql, s.isGuardedCreate = true := by decide

/-- A guarded CREATE that succeeds never removes a schema object. -/
theorem execStmt_guarded_mono (db db' : DbState) (s : Stmt)
    (hg : s.isGuardedCreate = true) (h : execStmt db s = .ok db') :
    ∀ o ∈ db.objects, o ∈ db'.objects := by
  intro o ho
  cases s with
  | createTable ine n cols fks =>
      simp only [Stmt.isGuardedCreate] at hg
      subst hg
      simp only [execStmt] at h
      split at h
      · simp only [if_pos trivial] at h
        cases h
        exact ho
      · cases h
        exact List.mem_append_left _ ho
  | createIndex ine n t cols =>
      simp only [Stmt.isGuardedCreate] at hg
      subst hg
      simp only [execStmt] at h
      split at h
      · simp only [if_pos trivial] at h
        cases h
        exact ho
      · split at h
        · cases h
          exact List.mem_append_left _ ho
        · cases h
  | dropTable n => simp [Stmt.isGuardedCreate] at hg
  | dropIndex n => simp [Stmt.isGuardedCreate] at hg
  | alterTable n a => simp [Stmt.isGuardedCreate] at hg
  | pragmaForeignKeys b => simp [Stmt.isGuardedCreate] at hg

/-- C8: every statement of every migration in the list is a CREATE
guarded by IF NOT EXISTS, and executing any statement of the version-1
batch never removes an existing schema object: once created, an object
is never dropped or altered by this code. -/
theorem forward_only_creates :
    migrations.all (fun m => m.sql.all Stmt.isGuardedCreate) = true
    ∧ (∀ db db' s, s ∈ migration1Sql → execStmt db s = .ok db' →
        ∀ o ∈ db.objects, o ∈ db'.objects) := by
  refine ⟨rfl, fun db db' s hs h o ho => ?_⟩
  exact execStmt_guarded_mono db db' s (migration1Sql_all_guarded s hs) h o ho

/-- Witness for forward_only_creates: the transcriptions table survives
re-executing the guarded CREATE TABLE on the migrated database. -/
theorem forward_only_creates_witness :
    SchemaObject.table "transcriptions" transcriptionsCols []
      ∈ v1Db.objects :=
  forward_only_creates.2 v1Db v1Db
    (.createTable true "transcriptions" transcriptionsCols [])
    (by decide) rfl
    (SchemaObject.table "transcriptions" transcriptionsCols []) (by decide)

/-- The object a CREATE statement would create already exists (trivially
true for the other statement forms). -/
def stmtDone (db : DbState) : Stmt → Bool
  | .createTable _ n _ _ => hasTable db n
  | .createIndex _ n _ _ => hasIndex db n
  | _ => true

/-- A table visible in a smaller object list is visible in a larger
one. -/
theorem hasTable_mono {db db' : DbState}
    (hsub : ∀ o ∈ db.objects, o ∈ db'.objects) {n : String}
    (h : hasTable db n = true) : hasTable db' n = true := by
  simp only [hasTable, List.any_eq_true] at h ⊢
  obtain ⟨o, ho, hm⟩ := h
  exact ⟨o, hsub o ho, hm⟩

/-- An index visible in a smaller object list is visible in a larger
one. -/
theorem hasIndex_mono {db db' : DbState}
    (hsub : ∀ o ∈ db.objects, o ∈ db'.objects) {n : String}
    (h : hasIndex db n = true) : hasIndex db' n = true := by
  simp only [hasIndex, List.any_eq_true] at h ⊢
  obtain ⟨o, ho, hm⟩ := h
  exact ⟨o, hsub o ho, hm⟩

/-- Growing the object list preserves stmtDone. -/
theorem stmtDone_mono {db db' : DbState}
    (hsub : ∀ o ∈ db.objects, o ∈ db'.objects) (s : Stmt)
    (h : stmtDone db s = true) : stmtDone db' s = true := by
  cases s with
  | createTable ine n cols fks => exact hasTable_mono hsub h
  | createIndex ine n t cols => exact hasIndex_mono hsub h
  | dropTable n => rfl
  | dropIndex n => rfl
  | alterTable n a => rfl
  | pragmaForeignKeys b => rfl

/-- A guarded CREATE whose object already exists is a silent no-op. -/
theorem execStmt_guarded_skip (db : DbState) (s : Stmt)
    (hg : s.isGuardedCreate = true) (hd : stmtDone db s = true) :
    execStmt db s = .ok db := by
  cases s with
  | createTable ine n cols fks =>
      simp only [Stmt.isGuardedCreate] at hg
      simp only [stmtDone] at hd
      simp [execStmt, hd, hg]
  | createIndex ine n t cols =>
      simp only [Stmt.isGuardedCreate] at hg
      simp only [stmtDone] at hd
      simp [execStmt, hd, hg]
  | dropTable n => simp [Stmt.isGuardedCreate] at hg
  | dropIndex n => simp [Stmt.isGuardedCreate] at hg
  | alterTable n a => simp [Stmt.isGuardedCreate] at hg
  | pragmaForeignKeys b => simp [Stmt.isGuardedCreate] at hg

/-- After a guarded CREATE succeeds, its object exists. -/
theorem execStmt_guarded_done {db db' : DbState} {s : Stmt}
    (hg : s.isGuardedCreate = true) (h : execStmt db s = .ok db') :
    stmtDone db' s = true := by
  cases s with
  | createTable ine n cols fks =>
      simp only [Stmt.isGuardedCreate] at hg
      subst hg
      simp only [execStmt] at h
      by_cases hex : hasTable db n = true
      · rw [if_pos hex, if_pos trivial] at h
        cases h
        exact hex
      · rw [if_neg hex] at h
        cases h
        simp [stmtDone, hasTable, List.any_append]
  | createIndex ine n t cols =>
      simp only [Stmt.isGuardedCreate] at hg
      subst hg
      simp only [execStmt] at h
      by_cases hex : hasIndex db n = true
      · rw [if_pos hex, if_pos trivial] at h
        cases h
        exact hex
      · rw [if_neg hex] at h
        by_cases hta : hasTable db t = true
        · rw [if_pos hta] at h
          cases h
          simp [stmtDone, hasIndex, List.any_append]
        · rw [if_neg hta] at h
          cases h
  | dropTable n => simp [Stmt.isGuardedCreate] at hg
  | dropIndex n => simp [Stmt.isGuardedCreate] at hg
  | alterTable n a => simp [Stmt.isGuardedCreate] at hg
  | pragmaForeignKeys b => simp [Stmt.isGuardedCreate] at hg

/-- A batch of guarded CREATEs whose objects all exist already is a
silent no-op. -/
theorem execBatch_ok_of_done (db : DbState) (l : List Stmt)
    (hg : ∀ s ∈ l, s.isGuardedCreate = true)
    (hd : ∀ s ∈ l, stmtDone db s = true) :
    execBatch db l = .ok db := by
  induction l with
  | nil => rfl
  | cons s rest ih =>
      have h1 : execStmt db s = .ok db :=
        execStmt_guarded_skip db s (hg s (List.mem_cons_self s rest))
          (hd s (List.mem_cons_self s rest))
      simp only [execBatch, h1]
      exact ih (fun t ht => hg t (List.mem_cons_of_mem s ht))
        (fun t ht => hd t (List.mem_cons_of_mem s ht))

/-- Running a batch of guarded CREATEs successfully keeps every existing
object and leaves every statement's object existing. -/
theorem execBatch_establishes (l : List Stmt) :
    ∀ db db', (∀ s ∈ l, s.isGuardedCreate = true) →
      execBatch db l = .ok db' →
      (∀ o ∈ db.objects, o ∈ db'.objects)
      ∧ (∀ s ∈ l, stmtDone db' s = true) := by
  induction l with
  | nil =>
      intro db db' _ h
      simp only [execBatch] at h
      cases h
      exact ⟨fun o ho => ho, fun s hs => absurd hs (List.not_mem_nil s)⟩
  | cons s rest ih =>
      intro db db' hg h
      simp only [execBatch] at h
      cases he : execStmt db s with
      | error e => rw [he] at h; cases h
      | ok db₂ =>
          rw [he] at h
          have hgs := hg s (List.mem_cons_self s rest)
          have hmono1 := execStmt_guarded_mono db db₂ s hgs he
          have hdone1 := execStmt_guarded_done hgs he
          obtain ⟨hmono2, hdone2⟩ :=
            ih db₂ db' (fun t ht => hg t (List.mem_cons_of_mem s ht)) h
          refine ⟨fun o ho => hmono2 o (hmono1 o ho), fun t ht => ?_⟩
          rcases List.mem_cons.mp ht with rfl | ht'
          · exact stmtDone_mono hmono2 t hdone1
          · exact hdone2 t ht'

/-- C2: applying the version-1 SQL batch a second time to any database
on which it has just succeeded raises no error and leaves the database
unchanged; concretely, from a fresh database the first application
yields v1Db and the resulting schema-object names carry no duplicate. -/
theorem migration1_idempotent :
    (∀ db db', execBatch db migration1Sql = .ok db' →
        execBatch db' migration1Sql = .ok db')
    ∧ execBatch emptyDb migration1Sql = .ok v1Db
    ∧ (v1Db.objects.map SchemaObject.objName).Nodup := by
  refine ⟨fun db db' h => ?_, rfl, by decide⟩
  obtain ⟨-, hdone⟩ :=
    execBatch_establishes migration1Sql db db' migration1Sql_all_guarded h
  exact execBatch_ok_of_done db' migration1Sql migration1Sql_all_guarded hdone

/-- Witness for migration1_idempotent: a second application to the
migrated database is a no-op. -/
theorem migration1_idempotent_witness :
    execBatch v1Db migration1Sql = .ok v1Db :=
  migration1_idempotent.1 emptyDb v1Db rfl

/-- A transcriptions row with all required columns supplied and no
timestamp columns supplied. -/
def givenTranscription : List (String × Value) :=
  [("id", .text "t1"), ("audio_file_id", .text "a1"),
   ("text", .text "hello"), ("language", .text "en"),
   ("model_used", .text "base"), ("duration", .real 3)]

/-- The database after inserting givenTranscription at time 5. -/
def afterInsert : DbState :=
  match insertRow v1Db "transcriptions" givenTranscription 5 with
  | .ok d => d
  | .error _ => v1Db

/-- C6: a successful INSERT stores exactly the row completed with the
column defaults, and for any supplied values that omit created_at (and,
for transcriptions, updated_at), the completed row's created_at and
updated_at cells are the current timestamp of the insertion, for both
the transcriptions and the summaries table. -/
theorem created_at_defaults :
    (∀ db t given now db', insertRow db t given now = .ok db' →
        ∃ cols fks, findTable db t = some (cols, fks) ∧
          db'.rows = (t, completeRow cols given now) :: db.rows)
    ∧ (∀ given now, lookupVal given "created_at" = none →
        (completeRow transcriptionsCols given now).get "created_at"
          = some (.timestamp now))
    ∧ (∀ given now, lookupVal given "updated_at" = none →
        (completeRow transcriptionsCols given now).get "updated_at"
          = some (.timestamp now))
    ∧ (∀ given now, lookupVal given "created_at" = none →
        (completeRow summariesCols given now).get "created_at"
          = some (.timestamp now)) := by
  refine ⟨fun db t given now db' h => ?_, fun given now h => ?_,
    fun given now h => ?_, fun given now h => ?_⟩
  · unfold insertRow at h
    split at h
    · cases h
    · next cols fks heq =>
        refine ⟨cols, fks, heq, ?_⟩
        split at h
        · cases h
        · split at h
          · cases h
          · split at h
            · cases h
            · cases h
              rfl
  · have hget : (completeRow transcriptionsCols given now).get "created_at"
        = some (cellValue given now
            ⟨"created_at", "DATETIME", false, false, .currentTimestamp⟩) :=
      rfl
    rw [hget]
    unfold cellValue
    rw [h]
  · have hget : (completeRow transcriptionsCols given now).get "updated_at"
        = some (cellValue given now
            ⟨"updated_at", "DATETIME", false, false, .currentTimestamp⟩) :=
      rfl
    rw [hget]
    unfold cellValue
    rw [h]
  · have hget : (completeRow summariesCols given now).get "created_at"
        = some (cellValue given now
            ⟨"created_at", "DATETIME", false, false, .currentTimestamp⟩) :=
      rfl
    rw [hget]
    unfold cellValue
    rw [h]

/-- Witness for created_at_defaults: inserting a concrete transcription
at time 5 stores the completed row, whose created_at is timestamp 5. -/
theorem created_at_defaults_witness :
    (∃ cols fks, findTable v1Db "transcriptions" = some (cols, fks) ∧
        afterInsert.rows
          = ("transcriptions", completeRow cols givenTranscription 5)
            :: v1Db.rows)
    ∧ (completeRow transcriptionsCols givenTranscription 5).get "created_at"
        = some (.timestamp 5)
    ∧ (completeRow transcriptionsCols givenTranscription 5).get "updated_at"
        = some (.timestamp 5)
    ∧ (completeRow summariesCols givenTranscription 5).get "created_at"
        = some (.timestamp 5) :=
  ⟨created_at_defaults.1 v1Db "transcriptions" givenTranscription 5
      afterInsert rfl,
   created_at_defaults.2.1 givenTranscription 5 rfl,
   created_at_defaults.2.2.1 givenTranscription 5 rfl,
   created_at_defaults.2.2.2 givenTranscription 5 rfl⟩

end Transcriber
